import Mathlib

/-!
Verification of the cooperative-catalog filtering dashboard
(`src/data/coops.ts`, `src/App.tsx` and their variants).

Strings are modelled as lists of characters (`Str`), so that the
JavaScript operations used by the source — `Array.prototype.join`,
`String.prototype.toLowerCase`, `String.prototype.includes`,
`Array.prototype.includes` — become `List.intercalate`, a character-wise
lower-casing map, infix testing, and list membership.  JavaScript numbers
appearing in the filter logic (membership counts, capacities, range
bounds) are integers in all data and all comparisons used, so they are
modelled as `Int`.
-/

/-- JavaScript strings, modelled as lists of characters. -/
abbrev Str := List Char

/-- Build a modelled string from a Lean string literal. -/
def str (x : String) : Str := x.toList

/-- `String.prototype.toLowerCase`, character-wise (all data is ASCII). -/
def lowerStr (s : Str) : Str := s.map Char.toLower

/-- `needle` occurs in `hay` as a contiguous substring
(JavaScript `hay.includes(needle)`). -/
def containsSub (hay needle : Str) : Bool := decide (needle <:+: hay)

/-- The `Cooperative` record type of `src/data/coops.ts`.
`valueChain` and the `exportHistory` entries are string unions
(`"Producer" | "Processor" | "Exporter"`, resp.
`"Local" | "Regional" | "International"`) in the source; at runtime they
are plain strings, and the filter logic treats them as such. -/
structure Cooperative where
  id : Str
  cooperativeName : Str
  officialName : Str
  district : Str
  gps : Str
  sector : Str
  valueChain : Str
  buyer : Str
  members : Int
  capacity : Int
  capacityUnit : Str
  product : Str
  certifications : List Str
  exportHistory : List Str
  fdiPriority : Str
  esg : List Str
  partners : List Str
  contact : Str
deriving DecidableEq, Repr

/-- The `CoopFilters` type of `src/data/coops.ts`.  Optional TypeScript
fields (`sector?: string` …) are `Option Str`: `none` is `undefined`. -/
structure CoopFilters where
  q : Str
  sector : Option Str := none
  valueChain : Option Str := none
  district : Option Str := none
  buyer : Option Str := none
  certification : Option Str := none
  fdiPriority : Option Str := none
  esg : Option Str := none
  exportHistory : Option Str := none
  minMembers : Int
  maxMembers : Int
  minCapacity : Int
  maxCapacity : Int
deriving DecidableEq, Repr

/-- `defaultCoopFilters` of `src/data/coops.ts`. -/
def defaultCoopFilters : CoopFilters :=
  { q := []
    minMembers := 0
    maxMembers := 1000
    minCapacity := 0
    maxCapacity := 20000 }

/-- The list of fields joined into the free-text haystack inside
`filterCoops` (`src/data/coops.ts` lines 71–74). -/
def searchFields (c : Cooperative) : List Str :=
  [c.cooperativeName, c.officialName, c.sector, c.valueChain, c.district,
   c.buyer, c.product, c.fdiPriority, c.contact,
   List.intercalate (str " ") c.partners,
   List.intercalate (str " ") c.certifications]

/-- The free-text clause of `filterCoops`: skipped when `f.q` is falsy
(the empty string); otherwise the lower-cased space-joined haystack must
contain the lower-cased query. -/
def queryPass (q : Str) (c : Cooperative) : Bool :=
  if q = [] then true
  else
    containsSub (lowerStr (List.intercalate (str " ") (searchFields c))) (lowerStr q)

/-- One scalar selector clause of `filterCoops`, e.g.
`if (f.sector && c.sector !== f.sector) return false;`.  A JavaScript
truthiness test on an optional string is false for `undefined` (`none`)
and for the empty string. -/
def scalarSel (sel : Option Str) (field : Str) : Bool :=
  match sel with
  | none => true
  | some s => if s = [] then true else decide (field = s)

/-- One list-membership selector clause of `filterCoops`, e.g.
`if (f.certification && !c.certifications.includes(f.certification)) return false;`. -/
def listSel (sel : Option Str) (field : List Str) : Bool :=
  match sel with
  | none => true
  | some s => if s = [] then true else decide (s ∈ field)

/-- One numeric range clause of `filterCoops`, e.g.
`if (c.members < f.minMembers || c.members > f.maxMembers) return false;`. -/
def rangePass (lo hi v : Int) : Bool := !(decide (v < lo) || decide (v > hi))

/-- The per-record predicate of `filterCoops` (`src/data/coops.ts` lines
68–88): the sequence of early-`return false` guards, in source order. -/
def coopPass (f : CoopFilters) (c : Cooperative) : Bool :=
  queryPass f.q c &&
  scalarSel f.sector c.sector &&
  scalarSel f.valueChain c.valueChain &&
  scalarSel f.district c.district &&
  scalarSel f.buyer c.buyer &&
  listSel f.certification c.certifications &&
  scalarSel f.fdiPriority c.fdiPriority &&
  listSel f.esg c.esg &&
  listSel f.exportHistory c.exportHistory &&
  rangePass f.minMembers f.maxMembers c.members &&
  rangePass f.minCapacity f.maxCapacity c.capacity

/-- `filterCoops` of `src/data/coops.ts`. -/
def filterCoops (list : List Cooperative) (f : CoopFilters) : List Cooperative :=
  list.filter (coopPass f)

/-- `COOPS[0]` ("Sea Bloom") from `src/data/coops.ts`. -/
def co1 : Cooperative :=
  { id := str "co1"
    cooperativeName := str "Sea Bloom"
    officialName := str "Sea Bloom Cooperative"
    district := str "Stann Creek"
    gps := str "16.90,-88.20"
    sector := str "Seaweed"
    valueChain := str "Producer"
    buyer := str "Belize Sea Co."
    members := 45
    capacity := 12
    capacityUnit := str "tons"
    product := str "Raw seaweed"
    certifications := [str "Organic"]
    exportHistory := [str "Local"]
    fdiPriority := str "Blue Economy"
    esg := [str "Climate", str "Community"]
    partners := [str "NGO A"]
    contact := str "lead@seabloom.bz | +501 555-1001" }

/-- `COOPS[1]` ("Coral Care") from `src/data/coops.ts`. -/
def co2 : Cooperative :=
  { id := str "co2"
    cooperativeName := str "Coral Care"
    officialName := str "Coral Care Marine Cooperative"
    district := str "Toledo"
    gps := str "16.20,-88.81"
    sector := str "Aquaculture"
    valueChain := str "Processor"
    buyer := str "Blue Foods Ltd."
    members := 60
    capacity := 6000
    capacityUnit := str "kg"
    product := str "Sea cucumber (semi-processed)"
    certifications := [str "HACCP"]
    exportHistory := [str "Regional"]
    fdiPriority := str "Agribusiness & Fisheries"
    esg := [str "Biodiversity", str "Community"]
    partners := [str "Donor X", str "Tech Assist Y"]
    contact := str "info@coralcare.org | +501 555-1002" }

/-! ## The `buyerCountry` variant of the filter module (`src/unnamed/part_000`)

That file extends `CoopFilters` with an optional `buyerCountry` selector
and adds the clause
`if (f.buyerCountry && (c as any).buyerCountry !== f.buyerCountry) return false;`
to `filterCoops`. -/

/-- The `CoopFilters` type of the `part_000` variant, with the extra
optional `buyerCountry` selector. -/
structure CoopFiltersBC extends CoopFilters where
  buyerCountry : Option Str := none
deriving DecidableEq, Repr

/-- The value of the property read by `(c as any).buyerCountry` in the
`part_000` variant: the `Cooperative` type declares no `buyerCountry`
property and no record in the file carries one, so the read yields
`undefined` (`none`) for every record. -/
def recordBuyerCountry (_c : Cooperative) : Option Str := none

/-- The `buyerCountry` clause of the `part_000` variant:
`f.buyerCountry && (c as any).buyerCountry !== f.buyerCountry`.
Strict inequality `!==` between `undefined` and a string is true. -/
def buyerCountrySel (sel : Option Str) (recVal : Option Str) : Bool :=
  match sel with
  | none => true
  | some s => if s = [] then true else decide (recVal = some s)

/-- The per-record predicate of `filterCoops` in the `part_000` variant
(lines 224–247), clauses in source order. -/
def coopPassBC (f : CoopFiltersBC) (c : Cooperative) : Bool :=
  queryPass f.q c &&
  scalarSel f.sector c.sector &&
  scalarSel f.valueChain c.valueChain &&
  scalarSel f.district c.district &&
  scalarSel f.buyer c.buyer &&
  listSel f.certification c.certifications &&
  scalarSel f.fdiPriority c.fdiPriority &&
  listSel f.esg c.esg &&
  listSel f.exportHistory c.exportHistory &&
  buyerCountrySel f.buyerCountry (recordBuyerCountry c) &&
  rangePass f.minMembers f.maxMembers c.members &&
  rangePass f.minCapacity f.maxCapacity c.capacity

/-- `filterCoops` of the `part_000` variant. -/
def filterCoopsBC (list : List Cooperative) (f : CoopFiltersBC) : List Cooperative :=
  list.filter (coopPassBC f)

/-- The `buyerLocations` buyer → country map of `src/App.tsx`
(lines 44–53). -/
def buyerLocations : List (Str × Str) :=
  [(str "Belize Sea Co.", str "Belize"),
   (str "Blue Foods Ltd.", str "Trinidad & Tobago"),
   (str "ChocoBel Exporters", str "Guatemala"),
   (str "SweetBel Imports", str "Belize"),
   (str "Global Travel Partners", str "USA"),
   (str "BelSea Export", str "Belize"),
   (str "MarSea Intl", str "Mexico"),
   (str "Green Journeys", str "Belize")]

/-- Modelled from the spec: the buyer-country predicate as §4.2 item 6
and §7 (`UnresolvedBuyerCountry`) require it — the selector value is
compared with the country obtained by looking the record's *buyer name*
up in the external buyer → country mapping, and a buyer absent from the
mapping never matches (fail closed).  The repository's `filterCoops`
variants do not implement this; the in-repo mapping (`buyerLocations` of
`src/App.tsx`) is used as the external collaborator. -/
def specBuyerCountryPass (mapping : List (Str × Str)) (sel : Option Str)
    (c : Cooperative) : Bool :=
  match sel with
  | none => true
  | some s =>
    if s = [] then true
    else
      match mapping.lookup c.buyer with
      | some country => decide (country = s)
      | none => false

/-! ## CSV export (`src/data/coops.ts` lines 91–113)

Only the serialization is modelled; the `Blob`/download mechanics are the
out-of-scope browser collaborator. -/

/-- The `header` array of `exportCSV`. -/
def csvHeaderFields : List Str :=
  [str "Cooperative Name", str "Official Name", str "District", str "GPS",
   str "Sector", str "Value Chain", str "Linked Buyer", str "Membership Size",
   str "Production Capacity", str "Capacity Unit", str "Product Focus",
   str "Certifications", str "Export History", str "FDI Priority",
   str "ESG/SDG", str "Partners", str "Contact"]

/-- JavaScript number-to-string conversion as performed by
`Array.prototype.join` on the integer fields. -/
def intStr (n : Int) : Str := (toString n).toList

/-- One data row of `exportCSV`: the 17 fields in header order joined by
commas, list-valued fields joined by `|`, no quoting or escaping. -/
def csvRow (r : Cooperative) : Str :=
  List.intercalate (str ",")
    [r.cooperativeName, r.officialName, r.district, r.gps, r.sector,
     r.valueChain, r.buyer, intStr r.members, intStr r.capacity,
     r.capacityUnit, r.product,
     List.intercalate (str "|") r.certifications,
     List.intercalate (str "|") r.exportHistory,
     r.fdiPriority,
     List.intercalate (str "|") r.esg,
     List.intercalate (str "|") r.partners,
     r.contact]

/-- The `lines` array of `exportCSV`: the joined header followed by one
row per record. -/
def csvLines (rows : List Cooperative) : List Str :=
  [List.intercalate (str ",") csvHeaderFields] ++ rows.map csvRow

/-- The full CSV text handed to the `Blob`: lines joined by `"\n"`. -/
def exportCSVText (rows : List Cooperative) : Str :=
  List.intercalate (str "\n") (csvLines rows)

/-- The literal header line required by §6 of the spec. -/
def specCsvHeader : Str :=
  str "Cooperative Name,Official Name,District,GPS,Sector,Value Chain,Linked Buyer,Membership Size,Production Capacity,Capacity Unit,Product Focus,Certifications,Export History,FDI Priority,ESG/SDG,Partners,Contact"

/-! ## Application state and category-focus handlers (`src/App.tsx`)

`src/App.tsx` contains two App variants.  The first (EcosystemGraph
based, lines 20–218) holds `filters`, `selectedId` and `showSnapshot`;
its graph handlers `handleSectorFromGraph` / `handleFdiFromGraph`
(lines 58–65) update the filters and the snapshot flag.  The second
(NetworkGraph based, lines 264–385) holds `filters` and `selectedId`;
its inline `onSectorSelect` / `onFDISelect` handlers (lines 311–321)
clear the selection and update the filters.  The React `useState`
setters are modelled as pure state transformers. -/

/-- State of the first (EcosystemGraph) App variant. -/
structure AppStateE where
  filters : CoopFilters
  selectedId : Option Str
  showSnapshot : Bool
deriving DecidableEq, Repr

/-- `handleSectorFromGraph` of the first App variant
(`src/App.tsx` lines 58–61). -/
def handleSectorFromGraph (sector : Str) (s : AppStateE) : AppStateE :=
  { s with filters := { s.filters with sector := some sector }
           showSnapshot := true }

/-- `handleFdiFromGraph` of the first App variant
(`src/App.tsx` lines 62–65). -/
def handleFdiFromGraph (priority : Str) (s : AppStateE) : AppStateE :=
  { s with filters := { s.filters with fdiPriority := some priority }
           showSnapshot := true }

/-- State of the second (NetworkGraph) App variant. -/
structure AppStateN where
  filters : CoopFilters
  selectedId : Option Str
deriving DecidableEq, Repr

/-- The inline `onSectorSelect` handler of the second App variant
(`src/App.tsx` lines 311–315): `setSelectedId(undefined)` then
`setFilters((f) => ({ ...f, sector }))`. -/
def onSectorSelect (sector : Str) (s : AppStateN) : AppStateN :=
  { filters := { s.filters with sector := some sector }
    selectedId := none }

/-- The inline `onFDISelect` handler of the second App variant
(`src/App.tsx` lines 317–321). -/
def onFDISelect (priority : Str) (s : AppStateN) : AppStateN :=
  { filters := { s.filters with fdiPriority := some priority }
    selectedId := none }

/-- `g` is obtained from `f` by setting exactly one previously-unset
single-choice selector to some value (the strengthening step of the
spec's conjunctive-monotonicity property). -/
def setsOneSelector (f g : CoopFilters) : Prop :=
  (f.sector = none ∧ ∃ v, g = { f with sector := some v }) ∨
  (f.valueChain = none ∧ ∃ v, g = { f with valueChain := some v }) ∨
  (f.district = none ∧ ∃ v, g = { f with district := some v }) ∨
  (f.buyer = none ∧ ∃ v, g = { f with buyer := some v }) ∨
  (f.certification = none ∧ ∃ v, g = { f with certification := some v }) ∨
  (f.fdiPriority = none ∧ ∃ v, g = { f with fdiPriority := some v }) ∨
  (f.esg = none ∧ ∃ v, g = { f with esg := some v }) ∨
  (f.exportHistory = none ∧ ∃ v, g = { f with exportHistory := some v })

/-! ## Helper lemmas -/

set_option maxRecDepth 20000

theorem rangePass_iff (lo hi v : Int) : rangePass lo hi v = true ↔ lo ≤ v ∧ v ≤ hi := by
  simp only [rangePass, Bool.not_eq_true', Bool.or_eq_false_iff, decide_eq_false_iff_not]
  omega

theorem scalarSel_iff (sel : Option Str) (field : Str) :
    scalarSel sel field = true ↔ ∀ v, sel = some v → v ≠ [] → field = v := by
  cases sel with
  | none => simp [scalarSel]
  | some s =>
    by_cases hs : s = []
    · subst hs; simp [scalarSel]
    · simp [scalarSel, hs]

theorem listSel_iff (sel : Option Str) (field : List Str) :
    listSel sel field = true ↔ ∀ v, sel = some v → v ≠ [] → v ∈ field := by
  cases sel with
  | none => simp [listSel]
  | some s =>
    by_cases hs : s = []
    · subst hs; simp [listSel]
    · simp [listSel, hs]

theorem queryPass_iff (q : Str) (c : Cooperative) :
    queryPass q c = true ↔
      (q = [] ∨
        containsSub (lowerStr (List.intercalate (str " ") (searchFields c))) (lowerStr q) = true) := by
  by_cases hq : q = [] <;> simp [queryPass, hq]

theorem scalarSel_none (field : Str) : scalarSel none field = true := rfl

theorem map_intersperse (f : Char → Char) (sep : Str) :
    ∀ l : List Str,
      List.map (List.map f) (List.intersperse sep l) =
        List.intersperse (List.map f sep) (List.map (List.map f) l)
  | [] => rfl
  | [_] => rfl
  | a :: b :: tl => by
    rw [List.intersperse_cons_cons, List.map_cons, List.map_cons,
      map_intersperse f sep (b :: tl)]
    rfl

theorem lowerStr_intercalate (sep : Str) (l : List Str) :
    lowerStr (List.intercalate sep l) =
      List.intercalate (lowerStr sep) (l.map lowerStr) := by
  simp only [lowerStr, List.intercalate, List.map_flatten, map_intersperse]
  rfl

/-! ## Claim theorems -/

/-- C1: For every record and every non-empty query string, the free-text
predicate of `filterCoops` holds iff the lower-cased, space-joined
concatenation of the record's display name, official name, sector,
value-chain stage, district, buyer, product description, FDI priority,
contact string, space-joined partner list, and space-joined certification
list contains the lower-cased query as a contiguous substring; when the
query is the empty string the predicate is skipped and constrains
nothing. -/
theorem freeText_matches_spec (c : Cooperative) (q : Str) :
    (q ≠ [] →
      (queryPass q c = true ↔
        containsSub
          (List.intercalate (str " ")
            [lowerStr c.cooperativeName, lowerStr c.officialName, lowerStr c.sector,
             lowerStr c.valueChain, lowerStr c.district, lowerStr c.buyer,
             lowerStr c.product, lowerStr c.fdiPriority, lowerStr c.contact,
             lowerStr (List.intercalate (str " ") c.partners),
             lowerStr (List.intercalate (str " ") c.certifications)])
          (lowerStr q) = true))
    ∧ queryPass [] c = true := by
  constructor
  · intro hq
    rw [queryPass, if_neg hq, lowerStr_intercalate]
    have hsep : lowerStr (str " ") = str " " := by decide
    rw [hsep]
    simp [searchFields]
  · simp [queryPass]

/-- Witness for C1: the query `"seaweed"` is non-empty and matches the
record `co1` (whose sector is `"Seaweed"`); the empty query passes. -/
theorem freeText_matches_spec_witness :
    str "seaweed" ≠ [] ∧ queryPass (str "seaweed") co1 = true ∧ queryPass [] co1 = true :=
  ⟨by decide,
   ((freeText_matches_spec co1 (str "seaweed")).1 (by decide)).mpr (by decide),
   (freeText_matches_spec co1 []).2⟩

/-- C4: a record passes the numeric range predicates of `filterCoops` iff
`minMembers ≤ members ≤ maxMembers` and
`minCapacity ≤ capacity ≤ maxCapacity`, inclusive on both ends; `co1`
(`members = 45`) passes `minMembers = 45, maxMembers = 45` and fails
`minMembers = 46`. -/
theorem range_predicates_inclusive :
    (∀ lo hi v : Int, rangePass lo hi v = true ↔ lo ≤ v ∧ v ≤ hi) ∧
    (∀ (f : CoopFilters) (c : Cooperative),
      (rangePass f.minMembers f.maxMembers c.members &&
        rangePass f.minCapacity f.maxCapacity c.capacity) = true ↔
        (f.minMembers ≤ c.members ∧ c.members ≤ f.maxMembers ∧
         f.minCapacity ≤ c.capacity ∧ c.capacity ≤ f.maxCapacity)) ∧
    filterCoops [co1] { defaultCoopFilters with minMembers := 45, maxMembers := 45 } = [co1] ∧
    filterCoops [co1] { defaultCoopFilters with minMembers := 46 } = [] := by
  refine ⟨rangePass_iff, ?_, by decide, by decide⟩
  intro f c
  simp only [Bool.and_eq_true, rangePass_iff]
  tauto

/-- C7: `filterCoops` returns a subsequence of its input: the output is a
sublist of the input (same relative order, no re-sorting), and every
output record occurs in the input. -/
theorem filterCoops_stable (l : List Cooperative) (f : CoopFilters) :
    (filterCoops l f).Sublist l ∧ ∀ c ∈ filterCoops l f, c ∈ l :=
  ⟨List.filter_sublist l, fun _ hc => (List.mem_filter.mp hc).1⟩

/-- C10: a single-choice selector set to the empty string behaves exactly
as if it were unset, for each of the eight selectors, because every
selector clause is guarded by string truthiness and the empty string is
falsy. -/
theorem emptyString_selector_unset (l : List Cooperative) (f : CoopFilters) :
    filterCoops l { f with sector := some [] } = filterCoops l { f with sector := none } ∧
    filterCoops l { f with valueChain := some [] } = filterCoops l { f with valueChain := none } ∧
    filterCoops l { f with district := some [] } = filterCoops l { f with district := none } ∧
    filterCoops l { f with buyer := some [] } = filterCoops l { f with buyer := none } ∧
    filterCoops l { f with certification := some [] } = filterCoops l { f with certification := none } ∧
    filterCoops l { f with fdiPriority := some [] } = filterCoops l { f with fdiPriority := none } ∧
    filterCoops l { f with esg := some [] } = filterCoops l { f with esg := none } ∧
    filterCoops l { f with exportHistory := some [] } = filterCoops l { f with exportHistory := none } := by
  refine ⟨?_, ?_, ?_, ?_, ?_, ?_, ?_, ?_⟩ <;>
  · rw [filterCoops, filterCoops]
    apply List.filter_congr
    intro c _
    simp [coopPass, scalarSel, listSel]

/-- C2: a record is in the output of `filterCoops` iff it occurs in the
input and satisfies the conjunction of all predicates: the free-text
predicate when the query is set, case-sensitive exact equality with the
record's scalar field for each set scalar selector (sector, valueChain,
district, buyer, fdiPriority), membership in the record's list for each
set list-targeting selector (certification, esg, exportHistory), and the
two inclusive numeric ranges.  A selector is set when it holds a
non-empty string. -/
theorem mem_filterCoops_iff (l : List Cooperative) (f : CoopFilters) (c : Cooperative) :
    c ∈ filterCoops l f ↔
      c ∈ l ∧
      (f.q = [] ∨
        containsSub (lowerStr (List.intercalate (str " ") (searchFields c)))
          (lowerStr f.q) = true) ∧
      (∀ v, f.sector = some v → v ≠ [] → c.sector = v) ∧
      (∀ v, f.valueChain = some v → v ≠ [] → c.valueChain = v) ∧
      (∀ v, f.district = some v → v ≠ [] → c.district = v) ∧
      (∀ v, f.buyer = some v → v ≠ [] → c.buyer = v) ∧
      (∀ v, f.certification = some v → v ≠ [] → v ∈ c.certifications) ∧
      (∀ v, f.fdiPriority = some v → v ≠ [] → c.fdiPriority = v) ∧
      (∀ v, f.esg = some v → v ≠ [] → v ∈ c.esg) ∧
      (∀ v, f.exportHistory = some v → v ≠ [] → v ∈ c.exportHistory) ∧
      (f.minMembers ≤ c.members ∧ c.members ≤ f.maxMembers) ∧
      (f.minCapacity ≤ c.capacity ∧ c.capacity ≤ f.maxCapacity) := by
  rw [filterCoops, List.mem_filter]
  simp only [coopPass, Bool.and_eq_true, queryPass_iff, scalarSel_iff, listSel_iff,
    rangePass_iff]
  tauto

/-- Witness for C2: the characterization instantiated at the catalog
records `co1`, `co2` and a sector filter that keeps only `co1`. -/
theorem mem_filterCoops_iff_witness :
    co2 ∈ filterCoops [co1, co2] { defaultCoopFilters with sector := some (str "Aquaculture") } ↔
      co2 ∈ [co1, co2] ∧
      (CoopFilters.q { defaultCoopFilters with sector := some (str "Aquaculture") } = [] ∨
        containsSub (lowerStr (List.intercalate (str " ") (searchFields co2)))
          (lowerStr (CoopFilters.q { defaultCoopFilters with sector := some (str "Aquaculture") })) = true) ∧
      (∀ v, CoopFilters.sector { defaultCoopFilters with sector := some (str "Aquaculture") } = some v → v ≠ [] → co2.sector = v) ∧
      (∀ v, CoopFilters.valueChain { defaultCoopFilters with sector := some (str "Aquaculture") } = some v → v ≠ [] → co2.valueChain = v) ∧
      (∀ v, CoopFilters.district { defaultCoopFilters with sector := some (str "Aquaculture") } = some v → v ≠ [] → co2.district = v) ∧
      (∀ v, CoopFilters.buyer { defaultCoopFilters with sector := some (str "Aquaculture") } = some v → v ≠ [] → co2.buyer = v) ∧
      (∀ v, CoopFilters.certification { defaultCoopFilters with sector := some (str "Aquaculture") } = some v → v ≠ [] → v ∈ co2.certifications) ∧
      (∀ v, CoopFilters.fdiPriority { defaultCoopFilters with sector := some (str "Aquaculture") } = some v → v ≠ [] → co2.fdiPriority = v) ∧
      (∀ v, CoopFilters.esg { defaultCoopFilters with sector := some (str "Aquaculture") } = some v → v ≠ [] → v ∈ co2.esg) ∧
      (∀ v, CoopFilters.exportHistory { defaultCoopFilters with sector := some (str "Aquaculture") } = some v → v ≠ [] → v ∈ co2.exportHistory) ∧
      (CoopFilters.minMembers { defaultCoopFilters with sector := some (str "Aquaculture") } ≤ co2.members ∧
        co2.members ≤ CoopFilters.maxMembers { defaultCoopFilters with sector := some (str "Aquaculture") }) ∧
      (CoopFilters.minCapacity { defaultCoopFilters with sector := some (str "Aquaculture") } ≤ co2.capacity ∧
        co2.capacity ≤ CoopFilters.maxCapacity { defaultCoopFilters with sector := some (str "Aquaculture") }) :=
  mem_filterCoops_iff [co1, co2] { defaultCoopFilters with sector := some (str "Aquaculture") } co2

/-- C5: `filterCoops` with the `defaultCoopFilters()` specification
(empty query, all selectors unset, ranges `[0, 1000]` and `[0, 20000]`)
returns any list whose records have `members` in `[0, 1000]` and
`capacity` in `[0, 20000]` unchanged, in both membership and order. -/
theorem filterCoops_default_identity (l : List Cooperative)
    (h : ∀ c ∈ l, 0 ≤ c.members ∧ c.members ≤ 1000 ∧
      0 ≤ c.capacity ∧ c.capacity ≤ 20000) :
    filterCoops l defaultCoopFilters = l := by
  rw [filterCoops]
  apply List.filter_eq_self.mpr
  intro c hc
  obtain ⟨h1, h2, h3, h4⟩ := h c hc
  simp only [coopPass, defaultCoopFilters, Bool.and_eq_true, queryPass_iff,
    scalarSel_iff, listSel_iff, rangePass_iff, and_assoc]
  exact ⟨Or.inl trivial, fun v hv => Option.noConfusion hv, fun v hv => Option.noConfusion hv,
    fun v hv => Option.noConfusion hv, fun v hv => Option.noConfusion hv,
    fun v hv => Option.noConfusion hv, fun v hv => Option.noConfusion hv,
    fun v hv => Option.noConfusion hv, fun v hv => Option.noConfusion hv, h1, h2, h3, h4⟩

/-- Witness for C5: the default specification returns the two-record
catalog prefix unchanged. -/
theorem filterCoops_default_identity_witness :
    filterCoops [co1, co2] defaultCoopFilters = [co1, co2] :=
  filterCoops_default_identity [co1, co2] (by decide)

/-- C6: setting one previously-unset single-choice selector never adds a
record to the result of `filterCoops`: the strengthened specification's
output is a subset of the original output. -/
theorem filterCoops_monotone (l : List Cooperative) (f g : CoopFilters)
    (h : setsOneSelector f g) (c : Cooperative)
    (hc : c ∈ filterCoops l g) : c ∈ filterCoops l f := by
  rw [filterCoops, List.mem_filter] at hc ⊢
  refine ⟨hc.1, ?_⟩
  have hp := hc.2
  rcases h with ⟨hn, v, rfl⟩ | ⟨hn, v, rfl⟩ | ⟨hn, v, rfl⟩ | ⟨hn, v, rfl⟩ |
    ⟨hn, v, rfl⟩ | ⟨hn, v, rfl⟩ | ⟨hn, v, rfl⟩ | ⟨hn, v, rfl⟩ <;>
  · simp only [coopPass, Bool.and_eq_true] at hp ⊢
    simp_all [scalarSel, listSel]

/-- Witness for C6: strengthening the default specification with the
sector selector `"Seaweed"`; `co1` survives the strengthened filter and,
by monotonicity, the default filter. -/
theorem filterCoops_monotone_witness :
    co1 ∈ filterCoops [co1, co2] defaultCoopFilters :=
  filterCoops_monotone [co1, co2] defaultCoopFilters
    { defaultCoopFilters with sector := some (str "Seaweed") }
    (Or.inl ⟨rfl, str "Seaweed", rfl⟩) co1 (by decide)

/-- C8: the CSV text built by `exportCSV` for `n` records consists of
`n + 1` newline-separated lines, the first being the literal header
required by the spec and each following line the corresponding record's
row (fields in header order, comma-separated, list-valued fields joined
by `|`, no quoting or escaping). -/
theorem exportCSV_shape (rows : List Cooperative) :
    csvLines rows = specCsvHeader :: rows.map csvRow ∧
    (csvLines rows).length = rows.length + 1 ∧
    exportCSVText rows = List.intercalate (str "\n") (specCsvHeader :: rows.map csvRow) := by
  have hh : List.intercalate (str ",") csvHeaderFields = specCsvHeader := by decide
  have h1 : csvLines rows = specCsvHeader :: rows.map csvRow := by
    rw [csvLines, hh]; rfl
  refine ⟨h1, ?_, ?_⟩
  · rw [h1]; simp
  · rw [exportCSVText, h1]

/-- C9 counterexample: in the EcosystemGraph App variant, the sector
focus handler `handleSectorFromGraph` does *not* clear the record
selection: starting from `Viewing "co1"`, focusing sector
`"Aquaculture"` sets the sector selector but the state is still
`Viewing "co1"`, not `Idle`. -/
theorem focusSector_keeps_selection :
    (handleSectorFromGraph (str "Aquaculture")
      { filters := defaultCoopFilters, selectedId := some (str "co1"),
        showSnapshot := false }).selectedId = some (str "co1") ∧
    (handleSectorFromGraph (str "Aquaculture")
      { filters := defaultCoopFilters, selectedId := some (str "co1"),
        showSnapshot := false }).filters.sector = some (str "Aquaculture") ∧
    some (str "co1") ≠ (none : Option Str) :=
  ⟨rfl, rfl, by decide⟩

/-- C9 (amended): the NetworkGraph App variant's focus handlers
(`onSectorSelect`, `onFDISelect`) set exactly the named selector, leave
the query, the numeric ranges and every other selector unchanged, and
clear the record selection (yielding `Idle`); the EcosystemGraph
variant's handlers (`handleSectorFromGraph`, `handleFdiFromGraph`) set
exactly the named selector and leave the query, ranges, other selectors
*and the record selection* unchanged, raising the snapshot flag
instead. -/
theorem focusCategory_effects :
    (∀ (s : AppStateN) (v : Str),
      (onSectorSelect v s).filters.sector = some v ∧
      (onSectorSelect v s).selectedId = none ∧
      (onSectorSelect v s).filters.q = s.filters.q ∧
      (onSectorSelect v s).filters.valueChain = s.filters.valueChain ∧
      (onSectorSelect v s).filters.district = s.filters.district ∧
      (onSectorSelect v s).filters.buyer = s.filters.buyer ∧
      (onSectorSelect v s).filters.certification = s.filters.certification ∧
      (onSectorSelect v s).filters.fdiPriority = s.filters.fdiPriority ∧
      (onSectorSelect v s).filters.esg = s.filters.esg ∧
      (onSectorSelect v s).filters.exportHistory = s.filters.exportHistory ∧
      (onSectorSelect v s).filters.minMembers = s.filters.minMembers ∧
      (onSectorSelect v s).filters.maxMembers = s.filters.maxMembers ∧
      (onSectorSelect v s).filters.minCapacity = s.filters.minCapacity ∧
      (onSectorSelect v s).filters.maxCapacity = s.filters.maxCapacity) ∧
    (∀ (s : AppStateN) (v : Str),
      (onFDISelect v s).filters.fdiPriority = some v ∧
      (onFDISelect v s).selectedId = none ∧
      (onFDISelect v s).filters.q = s.filters.q ∧
      (onFDISelect v s).filters.sector = s.filters.sector ∧
      (onFDISelect v s).filters.valueChain = s.filters.valueChain ∧
      (onFDISelect v s).filters.district = s.filters.district ∧
      (onFDISelect v s).filters.buyer = s.filters.buyer ∧
      (onFDISelect v s).filters.certification = s.filters.certification ∧
      (onFDISelect v s).filters.esg = s.filters.esg ∧
      (onFDISelect v s).filters.exportHistory = s.filters.exportHistory ∧
      (onFDISelect v s).filters.minMembers = s.filters.minMembers ∧
      (onFDISelect v s).filters.maxMembers = s.filters.maxMembers ∧
      (onFDISelect v s).filters.minCapacity = s.filters.minCapacity ∧
      (onFDISelect v s).filters.maxCapacity = s.filters.maxCapacity) ∧
    (∀ (s : AppStateE) (v : Str),
      (handleSectorFromGraph v s).filters.sector = some v ∧
      (handleSectorFromGraph v s).selectedId = s.selectedId ∧
      (handleSectorFromGraph v s).showSnapshot = true ∧
      (handleSectorFromGraph v s).filters.q = s.filters.q ∧
      (handleSectorFromGraph v s).filters.valueChain = s.filters.valueChain ∧
      (handleSectorFromGraph v s).filters.district = s.filters.district ∧
      (handleSectorFromGraph v s).filters.buyer = s.filters.buyer ∧
      (handleSectorFromGraph v s).filters.certification = s.filters.certification ∧
      (handleSectorFromGraph v s).filters.fdiPriority = s.filters.fdiPriority ∧
      (handleSectorFromGraph v s).filters.esg = s.filters.esg ∧
      (handleSectorFromGraph v s).filters.exportHistory = s.filters.exportHistory ∧
      (handleSectorFromGraph v s).filters.minMembers = s.filters.minMembers ∧
      (handleSectorFromGraph v s).filters.maxMembers = s.filters.maxMembers ∧
      (handleSectorFromGraph v s).filters.minCapacity = s.filters.minCapacity ∧
      (handleSectorFromGraph v s).filters.maxCapacity = s.filters.maxCapacity) ∧
    (∀ (s : AppStateE) (v : Str),
      (handleFdiFromGraph v s).filters.fdiPriority = some v ∧
      (handleFdiFromGraph v s).selectedId = s.selectedId ∧
      (handleFdiFromGraph v s).showSnapshot = true ∧
      (handleFdiFromGraph v s).filters.q = s.filters.q ∧
      (handleFdiFromGraph v s).filters.sector = s.filters.sector ∧
      (handleFdiFromGraph v s).filters.valueChain = s.filters.valueChain ∧
      (handleFdiFromGraph v s).filters.district = s.filters.district ∧
      (handleFdiFromGraph v s).filters.buyer = s.filters.buyer ∧
      (handleFdiFromGraph v s).filters.certification = s.filters.certification ∧
      (handleFdiFromGraph v s).filters.esg = s.filters.esg ∧
      (handleFdiFromGraph v s).filters.exportHistory = s.filters.exportHistory ∧
      (handleFdiFromGraph v s).filters.minMembers = s.filters.minMembers ∧
      (handleFdiFromGraph v s).filters.maxMembers = s.filters.maxMembers ∧
      (handleFdiFromGraph v s).filters.minCapacity = s.filters.minCapacity ∧
      (handleFdiFromGraph v s).filters.maxCapacity = s.filters.maxCapacity) :=
  ⟨fun _ _ => ⟨rfl, rfl, rfl, rfl, rfl, rfl, rfl, rfl, rfl, rfl, rfl, rfl, rfl, rfl⟩,
   fun _ _ => ⟨rfl, rfl, rfl, rfl, rfl, rfl, rfl, rfl, rfl, rfl, rfl, rfl, rfl, rfl⟩,
   fun _ _ => ⟨rfl, rfl, rfl, rfl, rfl, rfl, rfl, rfl, rfl, rfl, rfl, rfl, rfl, rfl, rfl⟩,
   fun _ _ => ⟨rfl, rfl, rfl, rfl, rfl, rfl, rfl, rfl, rfl, rfl, rfl, rfl, rfl, rfl, rfl⟩⟩

/-- C3: the `buyerCountry` clause of the `part_000` `filterCoops` decides
the predicate by reading a `buyerCountry` property directly off the
record — a property the record type never declares and no record carries
— so with the selector set it rejects *every* record, including `co1`,
whose buyer `"Belize Sea Co."` the external `buyerLocations` mapping of
`src/App.tsx` resolves to exactly the selected country `"Belize"` (the
spec's mapping-based fail-closed predicate accepts `co1` there, and
`co1` passes every other clause of the filter). -/
theorem buyerCountry_read_off_record :
    filterCoopsBC [co1, co2]
      { toCoopFilters := defaultCoopFilters, buyerCountry := some (str "Belize") } = [] ∧
    specBuyerCountryPass buyerLocations (some (str "Belize")) co1 = true ∧
    coopPass defaultCoopFilters co1 = true ∧
    buyerCountrySel (some (str "Belize")) (recordBuyerCountry co1) = false :=
  ⟨by decide, by decide, by decide, by decide⟩

/-- Witness for C7: the record `co1` kept by a concrete filter run indeed
occurs in the input list. -/
theorem filterCoops_stable_witness : co1 ∈ [co1, co2] :=
  (filterCoops_stable [co1, co2] defaultCoopFilters).2 co1 (by decide)
